import Mathlib

/-!
Shallow embedding of the user-management backend's database service layer
(`user.service`, `role.service`, `session.service`, `refresh-token.service`,
`password-reset.service`).

Modelling conventions:
* A table is a `List` of row structures; row order is insertion order.
* Timestamps (`Date` values) are `Int` (milliseconds since epoch);
  `new Date()` becomes an explicit `now : Int` argument, one per service
  call, mirroring the single snapshot the source takes per call.
* The Prisma query engine's operations are modelled once
  (`prismaUpdate`, `prismaUpdateMany`, `prismaDeleteMany`, `prismaCount`,
  `prismaFindMany`, `prismaCreate`) and instantiated per table, mirroring
  the single `prisma` client all services share.
* `update`/`delete` on a missing unique row throw in Prisma (P2025); this
  is modelled by returning `none`.  `updateMany`/`deleteMany` return the
  matched-row count, as Prisma's `{ count }` does.
* `orderBy: { k: 'desc' }` is modelled by a stable sort (`sortByDesc`)
  on the corresponding key.
* JS `Math.ceil(total / limit)` is modelled as the rational ceiling
  `⌈(total : ℚ) / (limit : ℚ)⌉`.
* Optional fields of update-input interfaces become `Option`; a JS
  truthiness guard on a string filter (`if (filters?.userId)`) is false
  for the empty string, which the embedding reproduces.
-/

/-! ## Row types (field names follow the Prisma schema / service types) -/

structure User where
  id : String
  email : String
  password : String
  firstName : String
  lastName : String
  roleId : String
  phone : Option String
  avatar : Option String
  isActive : Bool
  createdAt : Int
deriving DecidableEq, Repr

structure Role where
  id : String
  name : String
  description : Option String
  permissions : List String
deriving DecidableEq, Repr

structure Session where
  id : String
  token : String
  userId : String
  ipAddress : Option String
  userAgent : Option String
  expiresAt : Int
  lastActivityAt : Int
  createdAt : Int
deriving DecidableEq, Repr

structure RefreshToken where
  id : String
  token : String
  userId : String
  expiresAt : Int
  isRevoked : Bool
  createdAt : Int
deriving DecidableEq, Repr

structure PasswordResetToken where
  id : String
  token : String
  userId : String
  expiresAt : Int
  isUsed : Bool
  createdAt : Int
deriving DecidableEq, Repr

/-! ## The Prisma query engine, modelled once -/

/-- `prisma.<t>.findUnique({ where })`: first row matching the predicate,
`none` when absent (unique constraints keep matches unique in practice). -/
def prismaFindUnique {α : Type} (w : α → Bool) (s : List α) : Option α :=
  s.find? w

/-- `prisma.<t>.create({ data })`: appends the freshly built row; a unique
constraint clash (detected by `uniq`) makes the store reject the insert. -/
def prismaCreate {α : Type} (uniq : α → Bool) (row : α) (s : List α) :
    Option (List α) :=
  if s.any uniq then none else some (s ++ [row])

/-- `prisma.<t>.update({ where, data })` for a unique `where`: throws
(P2025, modelled as `none`) when no row matches, otherwise applies the
update to the matching row. -/
def prismaUpdate {α : Type} (w : α → Bool) (f : α → α) (s : List α) :
    Option (List α) :=
  if s.any w then some (s.map fun r => if w r then f r else r) else none

/-- `prisma.<t>.updateMany({ where, data })`: applies the update to every
matching row and reports the matched-row count. -/
def prismaUpdateMany {α : Type} (w : α → Bool) (f : α → α) (s : List α) :
    List α × Nat :=
  ((s.map fun r => if w r then f r else r), (s.filter w).length)

/-- `prisma.<t>.deleteMany({ where })`: removes every matching row and
reports the matched-row count. -/
def prismaDeleteMany {α : Type} (w : α → Bool) (s : List α) :
    List α × Nat :=
  ((s.filter fun r => !(w r)), (s.filter w).length)

/-- `prisma.<t>.count({ where })`. -/
def prismaCount {α : Type} (w : α → Bool) (s : List α) : Nat :=
  (s.filter w).length

/-- Insert into a list sorted by `key` descending, keeping earlier rows
first among equal keys (stable). -/
def insertByDesc {α : Type} (key : α → Int) (a : α) : List α → List α
  | [] => [a]
  | b :: l => if key b < key a then a :: b :: l else b :: insertByDesc key a l

/-- Sort by `key` descending (stable insertion sort), modelling
`orderBy: { key: 'desc' }`. -/
def sortByDesc {α : Type} (key : α → Int) : List α → List α
  | [] => []
  | a :: l => insertByDesc key a (sortByDesc key l)

/-- `prisma.<t>.findMany({ where, orderBy: { key: 'desc' } })`. -/
def prismaFindMany {α : Type} (w : α → Bool) (key : α → Int) (s : List α) :
    List α :=
  sortByDesc key (s.filter w)

/-- Pagination envelope `{ page, limit, total, pages }` returned by every
paginated list operation; `pages` is JS `Math.ceil(total / limit)`. -/
structure Pagination where
  page : Nat
  limit : Nat
  total : Nat
  pages : Int
deriving DecidableEq, Repr

/-- Shared shape of the paginated list queries: filter, order by `key`
descending, `skip = (page - 1) * limit`, `take = limit`, and the envelope
with `pages = Math.ceil(total / limit)`. -/
def prismaPage {α : Type} (w : α → Bool) (key : α → Int)
    (page limit : Nat) (s : List α) : List α × Pagination :=
  let matched := s.filter w
  let items := ((sortByDesc key matched).drop ((page - 1) * limit)).take limit
  (items, ⟨page, limit, matched.length,
    ⌈(matched.length : ℚ) / (limit : ℚ)⌉⟩)

/-! ## password-reset.service.ts -/

structure CreatePasswordResetTokenData where
  token : String
  userId : String
  expiresAt : Int
deriving DecidableEq, Repr

structure UpdatePasswordResetTokenData where
  isUsed : Option Bool
  expiresAt : Option Int
deriving DecidableEq, Repr

/-- Row built by `prisma.passwordResetToken.create({ data })`; `id` and
`createdAt` are store-generated, `isUsed` defaults to `false`. -/
def mkPasswordResetToken (d : CreatePasswordResetTokenData)
    (id : String) (createdAt : Int) : PasswordResetToken :=
  ⟨id, d.token, d.userId, d.expiresAt, false, createdAt⟩

/-- `createPasswordResetToken`. -/
def createPasswordResetToken (s : List PasswordResetToken)
    (d : CreatePasswordResetTokenData) (id : String) (createdAt : Int) :
    Option (List PasswordResetToken) :=
  prismaCreate (fun r => r.token == d.token) (mkPasswordResetToken d id createdAt) s

/-- `findPasswordResetTokenByToken`. -/
def findPasswordResetTokenByToken (s : List PasswordResetToken)
    (token : String) : Option PasswordResetToken :=
  prismaFindUnique (fun r => r.token == token) s

/-- `findPasswordResetTokenById`. -/
def findPasswordResetTokenById (s : List PasswordResetToken)
    (id : String) : Option PasswordResetToken :=
  prismaFindUnique (fun r => r.id == id) s

/-- Effect of the `data` object of `updatePasswordResetToken` on a row:
fields absent from the input are left unchanged. -/
def applyPasswordResetTokenUpdate (d : UpdatePasswordResetTokenData)
    (r : PasswordResetToken) : PasswordResetToken :=
  { r with isUsed := d.isUsed.getD r.isUsed,
           expiresAt := d.expiresAt.getD r.expiresAt }

/-- `updatePasswordResetToken`. -/
def updatePasswordResetToken (s : List PasswordResetToken) (id : String)
    (d : UpdatePasswordResetTokenData) : Option (List PasswordResetToken) :=
  prismaUpdate (fun r => r.id == id) (applyPasswordResetTokenUpdate d) s

/-- `markPasswordResetTokenAsUsed`: `update({ where: { id }, data: { isUsed: true } })`. -/
def markPasswordResetTokenAsUsed (s : List PasswordResetToken)
    (id : String) : Option (List PasswordResetToken) :=
  prismaUpdate (fun r => r.id == id) (fun r => { r with isUsed := true }) s

/-- `markPasswordResetTokenAsUsedByToken`. -/
def markPasswordResetTokenAsUsedByToken (s : List PasswordResetToken)
    (token : String) : Option (List PasswordResetToken) :=
  prismaUpdate (fun r => r.token == token) (fun r => { r with isUsed := true }) s

/-- `getUserPasswordResetTokens`: all of a user's tokens,
`orderBy: { createdAt: 'desc' }`. -/
def getUserPasswordResetTokens (s : List PasswordResetToken)
    (userId : String) : List PasswordResetToken :=
  prismaFindMany (fun r => r.userId == userId) (fun r => r.createdAt) s

/-- `getActiveUserPasswordResetTokens`: unused, unexpired,
`orderBy: { createdAt: 'desc' }`. -/
def getActiveUserPasswordResetTokens (s : List PasswordResetToken)
    (userId : String) (now : Int) : List PasswordResetToken :=
  prismaFindMany
    (fun r => r.userId == userId && !r.isUsed && decide (now < r.expiresAt))
    (fun r => r.createdAt) s

/-- `deleteAllUserPasswordResetTokens`. -/
def deleteAllUserPasswordResetTokens (s : List PasswordResetToken)
    (userId : String) : List PasswordResetToken × Nat :=
  prismaDeleteMany (fun r => r.userId == userId) s

/-- `deleteExpiredPasswordResetTokens`: `deleteMany({ where: { expiresAt: { lt: new Date() } } })`. -/
def deleteExpiredPasswordResetTokens (s : List PasswordResetToken)
    (now : Int) : List PasswordResetToken × Nat :=
  prismaDeleteMany (fun r => decide (r.expiresAt < now)) s

/-- `deleteUsedPasswordResetTokens`: `deleteMany({ where: { isUsed: true } })`. -/
def deleteUsedPasswordResetTokens (s : List PasswordResetToken) :
    List PasswordResetToken × Nat :=
  prismaDeleteMany (fun r => r.isUsed) s

/-- `countActiveUserPasswordResetTokens`: count of unused, unexpired
tokens of the user. -/
def countActiveUserPasswordResetTokens (s : List PasswordResetToken)
    (userId : String) (now : Int) : Nat :=
  prismaCount
    (fun r => r.userId == userId && !r.isUsed && decide (now < r.expiresAt)) s

structure PasswordResetTokenFilters where
  userId : Option String
  isUsed : Option Bool
  isExpired : Option Bool
deriving DecidableEq, Repr

/-- The `where` object built by `getPasswordResetTokens` from its filters.
`if (filters?.userId)` is JS-truthy, so an empty string leaves the clause
unset; `isUsed`/`isExpired` are guarded by `!== undefined`; the
`isExpired: false` branch uses `gte` (non-strict). -/
def passwordResetTokenWhere (f : PasswordResetTokenFilters) (now : Int)
    (r : PasswordResetToken) : Bool :=
  (match f.userId with
   | none => true
   | some u => if u == "" then true else r.userId == u) &&
  (match f.isUsed with
   | none => true
   | some b => r.isUsed == b) &&
  (match f.isExpired with
   | none => true
   | some b => if b then decide (r.expiresAt < now) else decide (now ≤ r.expiresAt))

/-- Result shape of `getPasswordResetTokens`. -/
structure PasswordResetTokensPage where
  passwordResetTokens : List PasswordResetToken
  pagination : Pagination
deriving DecidableEq, Repr

/-- `getPasswordResetTokens(page, limit, filters)`:
`skip = (page - 1) * limit`, `take = limit`,
`orderBy: { createdAt: 'desc' }`, envelope with `Math.ceil(total / limit)`. -/
def getPasswordResetTokens (s : List PasswordResetToken)
    (page limit : Nat) (f : PasswordResetTokenFilters) (now : Int) :
    PasswordResetTokensPage :=
  let res := prismaPage (passwordResetTokenWhere f now) (fun r => r.createdAt)
    page limit s
  ⟨res.1, res.2⟩

/-- `isPasswordResetTokenValid`: absent token is invalid; otherwise
`!isUsed && expiresAt > new Date()`, with a single `now` snapshot. -/
def isPasswordResetTokenValid (s : List PasswordResetToken)
    (token : String) (now : Int) : Bool :=
  match prismaFindUnique (fun r => r.token == token) s with
  | none => false
  | some r => !r.isUsed && decide (now < r.expiresAt)

/-- `invalidateAllUserPasswordResetTokens`:
`updateMany({ where: { userId }, data: { isUsed: true } })`. -/
def invalidateAllUserPasswordResetTokens (s : List PasswordResetToken)
    (userId : String) : List PasswordResetToken × Nat :=
  prismaUpdateMany (fun r => r.userId == userId)
    (fun r => { r with isUsed := true }) s

/-! ## session.service.ts (src/unnamed/part_000..004 material) -/

structure CreateSessionData where
  token : String
  userId : String
  ipAddress : Option String
  userAgent : Option String
  expiresAt : Int
deriving DecidableEq, Repr

/-- Row built by `prisma.session.create({ data })`; `id`, `createdAt` and
the initial `lastActivityAt` are store-generated. -/
def mkSession (d : CreateSessionData) (id : String)
    (lastActivityAt createdAt : Int) : Session :=
  ⟨id, d.token, d.userId, d.ipAddress, d.userAgent, d.expiresAt,
    lastActivityAt, createdAt⟩

/-- `createSession`. -/
def createSession (s : List Session) (d : CreateSessionData) (id : String)
    (lastActivityAt createdAt : Int) : Option (List Session) :=
  prismaCreate (fun r => r.token == d.token)
    (mkSession d id lastActivityAt createdAt) s

/-- `findSessionByToken`. -/
def findSessionByToken (s : List Session) (token : String) : Option Session :=
  prismaFindUnique (fun r => r.token == token) s

/-- `getUserSessions`: all of a user's sessions,
`orderBy: { lastActivityAt: 'desc' }`. -/
def getUserSessions (s : List Session) (userId : String) : List Session :=
  prismaFindMany (fun r => r.userId == userId) (fun r => r.lastActivityAt) s

/-- `getActiveUserSessions`: unexpired sessions of the user,
`orderBy: { lastActivityAt: 'desc' }`. -/
def getActiveUserSessions (s : List Session) (userId : String) (now : Int) :
    List Session :=
  prismaFindMany (fun r => r.userId == userId && decide (now < r.expiresAt))
    (fun r => r.lastActivityAt) s

/-- `deleteAllUserSessions`. -/
def deleteAllUserSessions (s : List Session) (userId : String) :
    List Session × Nat :=
  prismaDeleteMany (fun r => r.userId == userId) s

/-- `deleteExpiredSessions`: `deleteMany({ where: { expiresAt: { lt: new Date() } } })`. -/
def deleteExpiredSessions (s : List Session) (now : Int) :
    List Session × Nat :=
  prismaDeleteMany (fun r => decide (r.expiresAt < now)) s

/-- `countActiveUserSessions`. -/
def countActiveUserSessions (s : List Session) (userId : String)
    (now : Int) : Nat :=
  prismaCount (fun r => r.userId == userId && decide (now < r.expiresAt)) s

/-! ## refresh-token.service.ts -/

structure CreateRefreshTokenData where
  token : String
  userId : String
  expiresAt : Int
deriving DecidableEq, Repr

structure UpdateRefreshTokenData where
  isRevoked : Option Bool
  expiresAt : Option Int
deriving DecidableEq, Repr

/-- Row built by `prisma.refreshToken.create({ data })`; `id` and
`createdAt` are store-generated, `isRevoked` defaults to `false`. -/
def mkRefreshToken (d : CreateRefreshTokenData) (id : String)
    (createdAt : Int) : RefreshToken :=
  ⟨id, d.token, d.userId, d.expiresAt, false, createdAt⟩

/-- `createRefreshToken`. -/
def createRefreshToken (s : List RefreshToken) (d : CreateRefreshTokenData)
    (id : String) (createdAt : Int) : Option (List RefreshToken) :=
  prismaCreate (fun r => r.token == d.token) (mkRefreshToken d id createdAt) s

/-- `findRefreshTokenByToken`. -/
def findRefreshTokenByToken (s : List RefreshToken) (token : String) :
    Option RefreshToken :=
  prismaFindUnique (fun r => r.token == token) s

/-- Effect of the `data` object of `updateRefreshToken` on a row. -/
def applyRefreshTokenUpdate (d : UpdateRefreshTokenData) (r : RefreshToken) :
    RefreshToken :=
  { r with isRevoked := d.isRevoked.getD r.isRevoked,
           expiresAt := d.expiresAt.getD r.expiresAt }

/-- `updateRefreshToken`. -/
def updateRefreshToken (s : List RefreshToken) (id : String)
    (d : UpdateRefreshTokenData) : Option (List RefreshToken) :=
  prismaUpdate (fun r => r.id == id) (applyRefreshTokenUpdate d) s

/-- `revokeRefreshToken`: `update({ where: { id }, data: { isRevoked: true } })`. -/
def revokeRefreshToken (s : List RefreshToken) (id : String) :
    Option (List RefreshToken) :=
  prismaUpdate (fun r => r.id == id) (fun r => { r with isRevoked := true }) s

/-- `revokeRefreshTokenByToken`. -/
def revokeRefreshTokenByToken (s : List RefreshToken) (token : String) :
    Option (List RefreshToken) :=
  prismaUpdate (fun r => r.token == token)
    (fun r => { r with isRevoked := true }) s

/-- `getUserRefreshTokens`: all of a user's refresh tokens,
`orderBy: { createdAt: 'desc' }`. -/
def getUserRefreshTokens (s : List RefreshToken) (userId : String) :
    List RefreshToken :=
  prismaFindMany (fun r => r.userId == userId) (fun r => r.createdAt) s

/-- `getActiveUserRefreshTokens`: unrevoked, unexpired,
`orderBy: { createdAt: 'desc' }`. -/
def getActiveUserRefreshTokens (s : List RefreshToken) (userId : String)
    (now : Int) : List RefreshToken :=
  prismaFindMany
    (fun r => r.userId == userId && !r.isRevoked && decide (now < r.expiresAt))
    (fun r => r.createdAt) s

/-- `deleteAllUserRefreshTokens`. -/
def deleteAllUserRefreshTokens (s : List RefreshToken) (userId : String) :
    List RefreshToken × Nat :=
  prismaDeleteMany (fun r => r.userId == userId) s

/-- `deleteExpiredRefreshTokens`. -/
def deleteExpiredRefreshTokens (s : List RefreshToken) (now : Int) :
    List RefreshToken × Nat :=
  prismaDeleteMany (fun r => decide (r.expiresAt < now)) s

/-- `deleteRevokedRefreshTokens`: `deleteMany({ where: { isRevoked: true } })`. -/
def deleteRevokedRefreshTokens (s : List RefreshToken) :
    List RefreshToken × Nat :=
  prismaDeleteMany (fun r => r.isRevoked) s

/-- `countActiveUserRefreshTokens`. -/
def countActiveUserRefreshTokens (s : List RefreshToken) (userId : String)
    (now : Int) : Nat :=
  prismaCount
    (fun r => r.userId == userId && !r.isRevoked && decide (now < r.expiresAt)) s

/-- `isRefreshTokenValid`: absent token is invalid; otherwise
`!isRevoked && expiresAt > new Date()`, with a single `now` snapshot. -/
def isRefreshTokenValid (s : List RefreshToken) (token : String)
    (now : Int) : Bool :=
  match prismaFindUnique (fun r => r.token == token) s with
  | none => false
  | some r => !r.isRevoked && decide (now < r.expiresAt)

/-! ## user.service.ts -/

structure UserFilters where
  isActive : Option Bool
  roleId : Option String
  search : Option String
deriving DecidableEq, Repr

/-- Case-insensitive substring containment, modelling Prisma
`{ contains: search, mode: 'insensitive' }`. -/
def containsInsensitive (hay needle : String) : Bool :=
  decide (needle.toLower.toList <:+: hay.toLower.toList)

/-- The `where` object built by `getUsers` from its filters.
`isActive` is guarded by `!== undefined`; `roleId` and `search` by JS
truthiness (an empty string leaves the clause unset); `search` is a
case-insensitive substring match over firstName OR lastName OR email. -/
def userWhere (f : UserFilters) (r : User) : Bool :=
  (match f.isActive with
   | none => true
   | some b => r.isActive == b) &&
  (match f.roleId with
   | none => true
   | some rid => if rid == "" then true else r.roleId == rid) &&
  (match f.search with
   | none => true
   | some q =>
     if q == "" then true
     else containsInsensitive r.firstName q || containsInsensitive r.lastName q ||
       containsInsensitive r.email q)

/-- Result shape of `getUsers`. -/
structure UsersPage where
  users : List User
  pagination : Pagination
deriving DecidableEq, Repr

/-- `getUsers(page, limit, filters)`: `skip = (page - 1) * limit`,
`take = limit`, `orderBy: { createdAt: 'desc' }`, envelope with
`Math.ceil(total / limit)`. -/
def getUsers (s : List User) (page limit : Nat) (f : UserFilters) :
    UsersPage :=
  let res := prismaPage (userWhere f) (fun r => r.createdAt) page limit s
  ⟨res.1, res.2⟩

/-- `findUserById`. -/
def findUserById (s : List User) (id : String) : Option User :=
  prismaFindUnique (fun r => r.id == id) s

/-- `deleteUser`: soft delete, `update({ where: { id }, data: { isActive: false } })`. -/
def deleteUser (s : List User) (id : String) : Option (List User) :=
  prismaUpdate (fun r => r.id == id) (fun r => { r with isActive := false }) s

/-! ## role.service.ts -/

/-- `canDeleteRole`: `prisma.user.count({ where: { roleId: id } }) === 0`. -/
def canDeleteRole (users : List User) (id : String) : Bool :=
  prismaCount (fun u => u.roleId == id) users == 0

/-- `deleteRole`: `prisma.role.delete({ where: { id } })`; P2025 (modelled
as `none`) when the role does not exist. -/
def deleteRole (roles : List Role) (id : String) : Option (List Role) :=
  if roles.any (fun r => r.id == id) then
    some (roles.filter fun r => !(r.id == id))
  else none

/-- Modelled from the spec: the role-deletion flow of the (not included)
controller layer, which per the spec performs the zero-users-assigned
check "via a zero-count query before deletion" — `canDeleteRole` first,
and the hard delete only when the check passes. -/
def guardedDeleteRole (roles : List Role) (users : List User) (id : String) :
    Option (List Role) :=
  if canDeleteRole users id then deleteRole roles id else none

/-! ## General lemmas about the modelled query engine -/

lemma prismaFindUnique_eq_none {α : Type} {w : α → Bool} {s : List α}
    (h : ∀ x ∈ s, w x = false) : prismaFindUnique w s = none :=
  List.find?_eq_none.2 (fun x hx => by simp [h x hx])

lemma prismaCreate_eq_some {α : Type} {uniq : α → Bool} {row : α}
    {s out : List α} (h : prismaCreate uniq row s = some out) :
    s.any uniq = false ∧ out = s ++ [row] := by
  unfold prismaCreate at h
  split at h
  · exact absurd h (by simp)
  · rename_i hany
    exact ⟨by simpa using hany, (Option.some.inj h).symm⟩

lemma prismaUpdate_eq_some {α : Type} {w : α → Bool} {f : α → α}
    {s out : List α} (h : prismaUpdate w f s = some out) :
    s.any w = true ∧ out = s.map fun r => if w r then f r else r := by
  unfold prismaUpdate at h
  split at h
  · rename_i hany
    exact ⟨hany, (Option.some.inj h).symm⟩
  · exact absurd h (by simp)

lemma prismaUpdate_of_any {α : Type} {w : α → Bool} (f : α → α)
    {s : List α} (h : s.any w = true) :
    prismaUpdate w f s = some (s.map fun r => if w r then f r else r) := by
  unfold prismaUpdate
  simp [h]

/-! ## C1: token validity -/

/-- C1: for every token string `t`, `isPasswordResetTokenValid` /
`isRefreshTokenValid` return `false` when no entity with token `t`
exists; otherwise they return `!flag && expiresAt > now` for the stored
entity, with the single `now` snapshot of the call; and a token issued
with `expiresAt` strictly in the past is rejected immediately after
issuance. -/
theorem tokenValidity_spec (sp : List PasswordResetToken)
    (sr : List RefreshToken) (t : String) (now : Int) :
    ((∀ r ∈ sp, r.token ≠ t) → isPasswordResetTokenValid sp t now = false) ∧
    (∀ r, findPasswordResetTokenByToken sp t = some r →
      isPasswordResetTokenValid sp t now
        = (!r.isUsed && decide (now < r.expiresAt))) ∧
    (∀ d id cAt sp', createPasswordResetToken sp d id cAt = some sp' →
      d.expiresAt < now → isPasswordResetTokenValid sp' d.token now = false) ∧
    ((∀ r ∈ sr, r.token ≠ t) → isRefreshTokenValid sr t now = false) ∧
    (∀ r, findRefreshTokenByToken sr t = some r →
      isRefreshTokenValid sr t now
        = (!r.isRevoked && decide (now < r.expiresAt))) ∧
    (∀ d id cAt sr', createRefreshToken sr d id cAt = some sr' →
      d.expiresAt < now → isRefreshTokenValid sr' d.token now = false) := by
  refine ⟨?_, ?_, ?_, ?_, ?_, ?_⟩
  · intro h
    have hn : prismaFindUnique (fun r => r.token == t) sp = none :=
      prismaFindUnique_eq_none (fun x hx => by simp [h x hx])
    simp [isPasswordResetTokenValid, hn]
  · intro r hr
    simp only [findPasswordResetTokenByToken] at hr
    simp [isPasswordResetTokenValid, hr]
  · intro d id cAt sp' hc hlt
    obtain ⟨hany, rfl⟩ := prismaCreate_eq_some hc
    have hnone : List.find? (fun r => r.token == d.token) sp = none :=
      List.find?_eq_none.2 (List.any_eq_false.1 hany)
    have hfind : prismaFindUnique (fun r => r.token == d.token)
        (sp ++ [mkPasswordResetToken d id cAt])
        = some (mkPasswordResetToken d id cAt) := by
      simp [prismaFindUnique, List.find?_append, hnone, mkPasswordResetToken]
    simp only [isPasswordResetTokenValid, hfind]
    simp [mkPasswordResetToken]
    omega
  · intro h
    have hn : prismaFindUnique (fun r => r.token == t) sr = none :=
      prismaFindUnique_eq_none (fun x hx => by simp [h x hx])
    simp [isRefreshTokenValid, hn]
  · intro r hr
    simp only [findRefreshTokenByToken] at hr
    simp [isRefreshTokenValid, hr]
  · intro d id cAt sr' hc hlt
    obtain ⟨hany, rfl⟩ := prismaCreate_eq_some hc
    have hnone : List.find? (fun r => r.token == d.token) sr = none :=
      List.find?_eq_none.2 (List.any_eq_false.1 hany)
    have hfind : prismaFindUnique (fun r => r.token == d.token)
        (sr ++ [mkRefreshToken d id cAt]) = some (mkRefreshToken d id cAt) := by
      simp [prismaFindUnique, List.find?_append, hnone, mkRefreshToken]
    simp only [isRefreshTokenValid, hfind]
    simp [mkRefreshToken]
    omega

/-- Witness for C1: concrete instances of each hypothesis-bearing
conjunct — the empty store rejects an absent token, a stored live token
validates to its flag/expiry conjunction, and a token created already
expired is rejected immediately. -/
theorem tokenValidity_spec_witness :
    isPasswordResetTokenValid [] "x" 0 = false ∧
    isRefreshTokenValid [] "x" 0 = false ∧
    isPasswordResetTokenValid [⟨"i", "t", "u", 5, false, 0⟩] "t" 0 = true ∧
    isPasswordResetTokenValid
      ((([] : List PasswordResetToken)) ++ [mkPasswordResetToken ⟨"t", "u", -1⟩ "i" 0]) "t" 0 = false ∧
    isRefreshTokenValid
      ((([] : List RefreshToken)) ++ [mkRefreshToken ⟨"t", "u", -1⟩ "i" 0]) "t" 0 = false := by
  refine ⟨?_, ?_, ?_, ?_, ?_⟩
  · exact (tokenValidity_spec [] [] "x" 0).1 (by decide)
  · exact (tokenValidity_spec [] [] "x" 0).2.2.2.1 (by decide)
  · have h := (tokenValidity_spec [⟨"i", "t", "u", 5, false, 0⟩] [] "t" 0).2.1
      ⟨"i", "t", "u", 5, false, 0⟩ (by decide)
    rw [h]
    decide
  · exact (tokenValidity_spec [] [] "t" 0).2.2.1 ⟨"t", "u", -1⟩ "i" 0 _ (by decide) (by decide)
  · exact (tokenValidity_spec [] [] "t" 0).2.2.2.2.2 ⟨"t", "u", -1⟩ "i" 0 _ (by decide) (by decide)

/-! ## C3: revoke-all zeroes the active count -/

/-- C3: immediately after `invalidateAllUserPasswordResetTokens`,
`deleteAllUserRefreshTokens`, or `deleteAllUserSessions` for a user, the
corresponding active count for that user is 0, for every prior store
state. -/
theorem revokeAll_zeroes_activeCount (sp : List PasswordResetToken)
    (sr : List RefreshToken) (ss : List Session) (u : String) (now : Int) :
    countActiveUserPasswordResetTokens
      (invalidateAllUserPasswordResetTokens sp u).1 u now = 0 ∧
    countActiveUserRefreshTokens (deleteAllUserRefreshTokens sr u).1 u now = 0 ∧
    countActiveUserSessions (deleteAllUserSessions ss u).1 u now = 0 := by
  refine ⟨?_, ?_, ?_⟩
  · simp only [countActiveUserPasswordResetTokens, prismaCount,
      invalidateAllUserPasswordResetTokens, prismaUpdateMany]
    rw [List.length_eq_zero, List.filter_eq_nil]
    intro a ha
    rcases List.mem_map.1 ha with ⟨r, hr, rfl⟩
    by_cases h : r.userId == u <;> simp [h]
  · simp only [countActiveUserRefreshTokens, prismaCount,
      deleteAllUserRefreshTokens, prismaDeleteMany]
    rw [List.length_eq_zero, List.filter_eq_nil]
    intro a ha
    have h := (List.mem_filter.1 ha).2
    simp at h
    simp [h]
  · simp only [countActiveUserSessions, prismaCount, deleteAllUserSessions,
      prismaDeleteMany]
    rw [List.length_eq_zero, List.filter_eq_nil]
    intro a ha
    have h := (List.mem_filter.1 ha).2
    simp at h
    simp [h]

/-! ## C5: sweeps only delete expired / retired rows -/

/-- C5: the expired-sweeps delete no row with `expiresAt` at or after the
call's `now` snapshot, the retired-sweeps delete no row whose terminal
flag is false, and the surviving rows are the original rows, unchanged
and in order (sublist of the prior state). -/
theorem sweep_frame (sp : List PasswordResetToken) (sr : List RefreshToken)
    (ss : List Session) (now : Int) :
    (deleteExpiredPasswordResetTokens sp now).1.Sublist sp ∧
    (∀ r ∈ sp, now ≤ r.expiresAt →
      r ∈ (deleteExpiredPasswordResetTokens sp now).1) ∧
    (deleteUsedPasswordResetTokens sp).1.Sublist sp ∧
    (∀ r ∈ sp, r.isUsed = false → r ∈ (deleteUsedPasswordResetTokens sp).1) ∧
    (deleteExpiredRefreshTokens sr now).1.Sublist sr ∧
    (∀ r ∈ sr, now ≤ r.expiresAt → r ∈ (deleteExpiredRefreshTokens sr now).1) ∧
    (deleteRevokedRefreshTokens sr).1.Sublist sr ∧
    (∀ r ∈ sr, r.isRevoked = false → r ∈ (deleteRevokedRefreshTokens sr).1) ∧
    (deleteExpiredSessions ss now).1.Sublist ss ∧
    (∀ r ∈ ss, now ≤ r.expiresAt → r ∈ (deleteExpiredSessions ss now).1) := by
  refine ⟨List.filter_sublist _, ?_, List.filter_sublist _, ?_,
    List.filter_sublist _, ?_, List.filter_sublist _, ?_,
    List.filter_sublist _, ?_⟩
  · intro r hr hle
    exact List.mem_filter.2 ⟨hr, by simp; omega⟩
  · intro r hr hf
    exact List.mem_filter.2 ⟨hr, by simp [hf]⟩
  · intro r hr hle
    exact List.mem_filter.2 ⟨hr, by simp; omega⟩
  · intro r hr hf
    exact List.mem_filter.2 ⟨hr, by simp [hf]⟩
  · intro r hr hle
    exact List.mem_filter.2 ⟨hr, by simp; omega⟩

/-- Witness for C5: in a store with one row expiring exactly at `now` and
one unused/unrevoked row, the sweeps keep those rows. -/
theorem sweep_frame_witness :
    (⟨"i", "t", "u", 5, false, 0⟩ : PasswordResetToken) ∈
      (deleteExpiredPasswordResetTokens [⟨"i", "t", "u", 5, false, 0⟩] 5).1 ∧
    (⟨"i", "t", "u", 5, false, 0⟩ : PasswordResetToken) ∈
      (deleteUsedPasswordResetTokens [⟨"i", "t", "u", 5, false, 0⟩]).1 ∧
    (⟨"i", "t", "u", 5, false, 0⟩ : RefreshToken) ∈
      (deleteExpiredRefreshTokens [⟨"i", "t", "u", 5, false, 0⟩] 5).1 ∧
    (⟨"i", "t", "u", 5, false, 0⟩ : RefreshToken) ∈
      (deleteRevokedRefreshTokens [⟨"i", "t", "u", 5, false, 0⟩]).1 ∧
    (⟨"i", "t", "u", none, none, 5, 0, 0⟩ : Session) ∈
      (deleteExpiredSessions [⟨"i", "t", "u", none, none, 5, 0, 0⟩] 5).1 := by
  have h := sweep_frame [⟨"i", "t", "u", 5, false, 0⟩]
    [⟨"i", "t", "u", 5, false, 0⟩] [⟨"i", "t", "u", none, none, 5, 0, 0⟩] 5
  exact ⟨h.2.1 _ (by decide) (by decide),
    h.2.2.2.1 _ (by decide) (by decide),
    h.2.2.2.2.2.1 _ (by decide) (by decide),
    h.2.2.2.2.2.2.2.1 _ (by decide) (by decide),
    h.2.2.2.2.2.2.2.2.2 _ (by decide) (by decide)⟩

lemma prismaUpdate_idem {α : Type} {w : α → Bool} {f : α → α}
    (hw : ∀ r, w (f r) = w r) (hf : ∀ r, f (f r) = f r)
    {s s' : List α} (h : prismaUpdate w f s = some s') :
    prismaUpdate w f s' = some s' := by
  obtain ⟨hany, rfl⟩ := prismaUpdate_eq_some h
  set g := fun r => if w r then f r else r with hg
  have hgg : ∀ r, g (g r) = g r := by
    intro r
    by_cases hr : w r
    · simp [hg, hr, hw r, hf r]
    · simp [hg, hr]
  have hwg : ∀ r, w (g r) = w r := by
    intro r
    by_cases hr : w r <;> simp [hg, hr, hw r]
  have hany' : (s.map g).any w = true := by
    rcases List.any_eq_true.1 hany with ⟨x, hx, hwx⟩
    exact List.any_eq_true.2 ⟨g x, List.mem_map_of_mem _ hx, by rw [hwg]; exact hwx⟩
  rw [prismaUpdate_of_any _ hany']
  have hcomp : g ∘ g = g := funext hgg
  rw [List.map_map, hcomp]

/-! ## C4: retirement is idempotent -/

/-- C4: the retire operations are idempotent — applying one twice yields
the very store produced by the first application — and retiring an
already-retired entity succeeds (no thrown error). -/
theorem retire_idempotent (sp : List PasswordResetToken)
    (sr : List RefreshToken) (i t : String) :
    (∀ sp', markPasswordResetTokenAsUsed sp i = some sp' →
      markPasswordResetTokenAsUsed sp' i = some sp') ∧
    (∀ sp', markPasswordResetTokenAsUsedByToken sp t = some sp' →
      markPasswordResetTokenAsUsedByToken sp' t = some sp') ∧
    (∀ sr', revokeRefreshToken sr i = some sr' →
      revokeRefreshToken sr' i = some sr') ∧
    (∀ sr', revokeRefreshTokenByToken sr t = some sr' →
      revokeRefreshTokenByToken sr' t = some sr') ∧
    (∀ r ∈ sp, r.id = i → r.isUsed = true →
      ∃ sp', markPasswordResetTokenAsUsed sp i = some sp') ∧
    (∀ r ∈ sp, r.token = t → r.isUsed = true →
      ∃ sp', markPasswordResetTokenAsUsedByToken sp t = some sp') ∧
    (∀ r ∈ sr, r.id = i → r.isRevoked = true →
      ∃ sr', revokeRefreshToken sr i = some sr') ∧
    (∀ r ∈ sr, r.token = t → r.isRevoked = true →
      ∃ sr', revokeRefreshTokenByToken sr t = some sr') := by
  refine ⟨?_, ?_, ?_, ?_, ?_, ?_, ?_, ?_⟩
  · intro sp' h
    exact prismaUpdate_idem (by intro r; rfl) (by intro r; rfl) h
  · intro sp' h
    exact prismaUpdate_idem (by intro r; rfl) (by intro r; rfl) h
  · intro sr' h
    exact prismaUpdate_idem (by intro r; rfl) (by intro r; rfl) h
  · intro sr' h
    exact prismaUpdate_idem (by intro r; rfl) (by intro r; rfl) h
  · intro r hr hi _
    exact ⟨_, prismaUpdate_of_any _
      (List.any_eq_true.2 ⟨r, hr, by simp [hi]⟩)⟩
  · intro r hr ht _
    exact ⟨_, prismaUpdate_of_any _
      (List.any_eq_true.2 ⟨r, hr, by simp [ht]⟩)⟩
  · intro r hr hi _
    exact ⟨_, prismaUpdate_of_any _
      (List.any_eq_true.2 ⟨r, hr, by simp [hi]⟩)⟩
  · intro r hr ht _
    exact ⟨_, prismaUpdate_of_any _
      (List.any_eq_true.2 ⟨r, hr, by simp [ht]⟩)⟩

/-- Witness for C4: on a store holding one already-used token, marking it
used again succeeds and returns the unchanged store. -/
theorem retire_idempotent_witness :
    markPasswordResetTokenAsUsed [⟨"i", "t", "u", 5, true, 0⟩] "i"
      = some [⟨"i", "t", "u", 5, true, 0⟩] ∧
    revokeRefreshTokenByToken [⟨"i", "t", "u", 5, true, 0⟩] "t"
      = some [⟨"i", "t", "u", 5, true, 0⟩] ∧
    (∃ sp', markPasswordResetTokenAsUsed [(⟨"i", "t", "u", 5, true, 0⟩ : PasswordResetToken)] "i" = some sp') := by
  have h := retire_idempotent [⟨"i", "t", "u", 5, true, 0⟩]
    [⟨"i", "t", "u", 5, true, 0⟩] "i" "t"
  exact ⟨h.1 _ (by decide), h.2.2.2.1 _ (by decide),
    h.2.2.2.2.1 ⟨"i", "t", "u", 5, true, 0⟩ (by decide) rfl rfl⟩

/-! ## Lemmas about the descending sort -/

lemma insertByDesc_perm {α : Type} (key : α → Int) (a : α) (l : List α) :
    List.Perm (insertByDesc key a l) (a :: l) := by
  induction l with
  | nil => rfl
  | cons b l ih =>
    by_cases h : key b < key a
    · simp [insertByDesc, h]
    · simp only [insertByDesc, h, if_false]
      exact (ih.cons b).trans (List.Perm.swap a b l)

lemma insertByDesc_sorted {α : Type} (key : α → Int) (a : α) (l : List α)
    (h : List.Pairwise (fun x y => key y ≤ key x) l) :
    List.Pairwise (fun x y => key y ≤ key x) (insertByDesc key a l) := by
  induction l with
  | nil => simp [insertByDesc]
  | cons b l ih =>
    rcases List.pairwise_cons.1 h with ⟨hb, hl⟩
    by_cases hba : key b < key a
    · rw [insertByDesc, if_pos hba]
      refine List.pairwise_cons.2 ⟨?_, h⟩
      intro x hx
      rcases List.mem_cons.1 hx with rfl | hx
      · omega
      · have := hb x hx
        omega
    · rw [insertByDesc, if_neg hba]
      refine List.pairwise_cons.2 ⟨?_, ih hl⟩
      intro x hx
      have hx' := (insertByDesc_perm key a l).mem_iff.1 hx
      rcases List.mem_cons.1 hx' with rfl | hx''
      · omega
      · exact hb x hx''

lemma sortByDesc_perm {α : Type} (key : α → Int) (l : List α) :
    List.Perm (sortByDesc key l) l := by
  induction l with
  | nil => rfl
  | cons a l ih =>
    exact (insertByDesc_perm key a (sortByDesc key l)).trans (ih.cons a)

lemma sortByDesc_sorted {α : Type} (key : α → Int) (l : List α) :
    List.Pairwise (fun x y => key y ≤ key x) (sortByDesc key l) := by
  induction l with
  | nil => simp [sortByDesc]
  | cons a l ih => exact insertByDesc_sorted key a _ ih

/-! ## C2: one-way flag -/

/-- Counterexample to C2: the exported generic update accepts
`isUsed: false` and turns a used token back into an unused one. -/
theorem oneWayFlag_counterexample :
    updatePasswordResetToken [⟨"i", "t", "u", 5, true, 0⟩] "i"
      ⟨some false, none⟩ = some [⟨"i", "t", "u", 5, false, 0⟩] := by
  decide

lemma forall₂_map_self {α : Type} (P : α → α → Prop) (g : α → α)
    (s : List α) (h : ∀ r, P r (g r)) : List.Forall₂ P s (s.map g) :=
  List.forall₂_map_right_iff.2 (List.forall₂_same.2 fun x _ => h x)

/-- C2 (amended): the dedicated retire operations and the bulk
invalidation never clear a set used/revoked flag, and the generic update
operations preserve it unless explicitly passed `isUsed`/`isRevoked`
equal to `false` — which they do accept, so the false-to-true transition
is one-way only outside the generic update path. -/
theorem oneWayFlag_amended (sp : List PasswordResetToken)
    (sr : List RefreshToken) (i t u : String)
    (d : UpdatePasswordResetTokenData) (e : UpdateRefreshTokenData) :
    (∀ sp', markPasswordResetTokenAsUsed sp i = some sp' →
      List.Forall₂ (fun a b => a.isUsed = true → b.isUsed = true) sp sp') ∧
    (∀ sp', markPasswordResetTokenAsUsedByToken sp t = some sp' →
      List.Forall₂ (fun a b => a.isUsed = true → b.isUsed = true) sp sp') ∧
    List.Forall₂ (fun a b => a.isUsed = true → b.isUsed = true) sp
      (invalidateAllUserPasswordResetTokens sp u).1 ∧
    (d.isUsed ≠ some false → ∀ sp', updatePasswordResetToken sp i d = some sp' →
      List.Forall₂ (fun a b => a.isUsed = true → b.isUsed = true) sp sp') ∧
    (∀ sr', revokeRefreshToken sr i = some sr' →
      List.Forall₂ (fun a b => a.isRevoked = true → b.isRevoked = true) sr sr') ∧
    (∀ sr', revokeRefreshTokenByToken sr t = some sr' →
      List.Forall₂ (fun a b => a.isRevoked = true → b.isRevoked = true) sr sr') ∧
    (e.isRevoked ≠ some false → ∀ sr', updateRefreshToken sr i e = some sr' →
      List.Forall₂ (fun a b => a.isRevoked = true → b.isRevoked = true) sr sr') := by
  refine ⟨?_, ?_, ?_, ?_, ?_, ?_, ?_⟩
  · intro sp' h
    obtain ⟨_, rfl⟩ := prismaUpdate_eq_some h
    exact forall₂_map_self _ _ _ (fun r => by
      by_cases hw : (r.id == i) <;> simp [hw])
  · intro sp' h
    obtain ⟨_, rfl⟩ := prismaUpdate_eq_some h
    exact forall₂_map_self _ _ _ (fun r => by
      by_cases hw : (r.token == t) <;> simp [hw])
  · exact forall₂_map_self _ _ _ (fun r => by
      by_cases hw : (r.userId == u) <;> simp [hw])
  · intro hd sp' h
    obtain ⟨_, rfl⟩ := prismaUpdate_eq_some h
    refine forall₂_map_self _ _ _ ?_
    intro r
    by_cases hw : (r.id == i)
    · simp only [hw, if_true]
      intro hu
      simp only [applyPasswordResetTokenUpdate]
      rcases hdu : d.isUsed with _ | b
      · simp [hu]
      · rcases b with _ | _
        · exact absurd hdu hd
        · simp
    · simp [hw]
  · intro sr' h
    obtain ⟨_, rfl⟩ := prismaUpdate_eq_some h
    exact forall₂_map_self _ _ _ (fun r => by
      by_cases hw : (r.id == i) <;> simp [hw])
  · intro sr' h
    obtain ⟨_, rfl⟩ := prismaUpdate_eq_some h
    exact forall₂_map_self _ _ _ (fun r => by
      by_cases hw : (r.token == t) <;> simp [hw])
  · intro he sr' h
    obtain ⟨_, rfl⟩ := prismaUpdate_eq_some h
    refine forall₂_map_self _ _ _ ?_
    intro r
    by_cases hw : (r.id == i)
    · simp only [hw, if_true]
      intro hu
      simp only [applyRefreshTokenUpdate]
      rcases hdu : e.isRevoked with _ | b
      · simp [hu]
      · rcases b with _ | _
        · exact absurd hdu he
        · simp
    · simp [hw]

/-- Witness for the amended C2: on a one-row store with a used token,
marking it used again and updating only its expiry both preserve the
flag. -/
theorem oneWayFlag_amended_witness :
    List.Forall₂ (fun a b : PasswordResetToken => a.isUsed = true → b.isUsed = true)
      [⟨"i", "t", "u", 5, true, 0⟩] [⟨"i", "t", "u", 5, true, 0⟩] ∧
    List.Forall₂ (fun a b : PasswordResetToken => a.isUsed = true → b.isUsed = true)
      [⟨"i", "t", "u", 5, true, 0⟩] [⟨"i", "t", "u", 9, true, 0⟩] := by
  constructor
  · exact (oneWayFlag_amended [⟨"i", "t", "u", 5, true, 0⟩] [] "i" "t" "u"
      ⟨none, none⟩ ⟨none, none⟩).1 _ (by decide)
  · exact (oneWayFlag_amended [⟨"i", "t", "u", 5, true, 0⟩] [] "i" "t" "u"
      ⟨none, some 9⟩ ⟨none, none⟩).2.2.2.1 (by decide) _ (by decide)

/-! ## C6: revoke-all affected-row count -/

/-- Counterexample to C6: a user whose only token is already used has
zero active tokens, yet `invalidateAllUserPasswordResetTokens` reports
one affected row, not zero. -/
theorem revokeAllNoop_counterexample :
    countActiveUserPasswordResetTokens [⟨"i", "t", "u", 5, true, 0⟩] "u" 10 = 0 ∧
    (invalidateAllUserPasswordResetTokens [⟨"i", "t", "u", 5, true, 0⟩] "u").2 = 1 := by
  decide

/-- C6 (amended): `invalidateAllUserPasswordResetTokens` reports as its
count the number of ALL of the user's tokens — its `where` clause is
`{ userId }` alone — so it is a zero-count no-op exactly when the user
owns no tokens at all, not merely no active ones. -/
theorem revokeAllNoop_amended (sp : List PasswordResetToken) (u : String) :
    (invalidateAllUserPasswordResetTokens sp u).2
      = prismaCount (fun r => r.userId == u) sp ∧
    ((invalidateAllUserPasswordResetTokens sp u).2 = 0 ↔ ∀ r ∈ sp, r.userId ≠ u) := by
  constructor
  · rfl
  · simp only [invalidateAllUserPasswordResetTokens, prismaUpdateMany]
    rw [List.length_eq_zero, List.filter_eq_nil_iff]
    constructor
    · intro h r hr
      have := h r hr
      simpa using this
    · intro h r hr
      simpa using h r hr

/-- Witness for the amended C6: the count equals the number of the user's
tokens on a concrete one-row store. -/
theorem revokeAllNoop_amended_witness :
    (invalidateAllUserPasswordResetTokens [⟨"i", "t", "u", 5, true, 0⟩] "u").2
      = prismaCount (fun r : PasswordResetToken => r.userId == "u")
        [⟨"i", "t", "u", 5, true, 0⟩] :=
  (revokeAllNoop_amended [⟨"i", "t", "u", 5, true, 0⟩] "u").1

/-! ## C8: per-user listings and their ordering -/

/-- Counterexample to C8: `getUserSessions` orders by `lastActivityAt`
descending, and on a store where the more recently active session is the
older-created one, the result is not newest-first by creation time. -/
theorem listForUser_createdAt_counterexample :
    ¬ List.Pairwise (fun x y : Session => y.createdAt ≤ x.createdAt)
      (getUserSessions [⟨"a", "ta", "u", none, none, 100, 0, 10⟩,
        ⟨"b", "tb", "u", none, none, 100, 20, 5⟩] "u") := by
  decide

/-- C8 (amended): `getUserPasswordResetTokens` and `getUserRefreshTokens`
return exactly the user's rows ordered newest first by creation time,
while `getUserSessions` / `getActiveUserSessions` return exactly the
user's (active) rows ordered by last-activity time descending — not by
creation time. -/
theorem listForUser_ordering (sp : List PasswordResetToken)
    (sr : List RefreshToken) (ss : List Session) (u : String) (now : Int) :
    List.Pairwise (fun x y : PasswordResetToken => y.createdAt ≤ x.createdAt)
      (getUserPasswordResetTokens sp u) ∧
    List.Perm (getUserPasswordResetTokens sp u)
      (sp.filter fun r => r.userId == u) ∧
    List.Pairwise (fun x y : RefreshToken => y.createdAt ≤ x.createdAt)
      (getUserRefreshTokens sr u) ∧
    List.Perm (getUserRefreshTokens sr u)
      (sr.filter fun r => r.userId == u) ∧
    List.Pairwise (fun x y : Session => y.lastActivityAt ≤ x.lastActivityAt)
      (getUserSessions ss u) ∧
    List.Perm (getUserSessions ss u) (ss.filter fun r => r.userId == u) ∧
    List.Pairwise (fun x y : Session => y.lastActivityAt ≤ x.lastActivityAt)
      (getActiveUserSessions ss u now) ∧
    List.Perm (getActiveUserSessions ss u now)
      (ss.filter fun r => r.userId == u && decide (now < r.expiresAt)) :=
  ⟨sortByDesc_sorted _ _, sortByDesc_perm _ _, sortByDesc_sorted _ _,
    sortByDesc_perm _ _, sortByDesc_sorted _ _, sortByDesc_perm _ _,
    sortByDesc_sorted _ _, sortByDesc_perm _ _⟩

/-! ## C7: guarded role deletion -/

/-- C7: the role-deletion flow is rejected whenever some user references
the role, and when no user references it the role row (if present) is
removed while every other role row survives; the zero-user condition is
the zero-count query `canDeleteRole`. -/
theorem roleDeletion_guard (roles : List Role) (users : List User)
    (i : String) :
    ((∃ x ∈ users, x.roleId = i) → guardedDeleteRole roles users i = none) ∧
    ((∀ x ∈ users, x.roleId ≠ i) → (∃ r ∈ roles, r.id = i) →
      ∃ roles', guardedDeleteRole roles users i = some roles' ∧
        (∀ r ∈ roles', r.id ≠ i) ∧ (∀ r ∈ roles, r.id ≠ i → r ∈ roles')) ∧
    (canDeleteRole users i = true ↔
      prismaCount (fun x => x.roleId == i) users = 0) := by
  refine ⟨?_, ?_, ?_⟩
  · rintro ⟨x, hx, hxi⟩
    have hmem : x ∈ users.filter (fun y => y.roleId == i) :=
      List.mem_filter.2 ⟨hx, by simp [hxi]⟩
    have hne : (users.filter (fun y => y.roleId == i)).length ≠ 0 := by
      intro h0
      rw [List.length_eq_zero] at h0
      simp [h0] at hmem
    simp [guardedDeleteRole, canDeleteRole, prismaCount, hne]
  · intro h hex
    rcases hex with ⟨r0, hr0, hid⟩
    have hcnt : users.filter (fun y => y.roleId == i) = [] :=
      List.filter_eq_nil_iff.2 (fun x hx => by simp [h x hx])
    have hcan : canDeleteRole users i = true := by
      simp [canDeleteRole, prismaCount, hcnt]
    have hany : roles.any (fun r => r.id == i) = true :=
      List.any_eq_true.2 ⟨r0, hr0, by simp [hid]⟩
    refine ⟨roles.filter (fun r => !(r.id == i)), ?_, ?_, ?_⟩
    · simp [guardedDeleteRole, hcan, deleteRole, hany]
    · intro r hr
      have hflag := (List.mem_filter.1 hr).2
      simpa using hflag
    · intro r hr hne
      exact List.mem_filter.2 ⟨hr, by simp [hne]⟩
  · simp [canDeleteRole]

/-- Witness for C7: a role referenced by one user cannot be deleted, and
an unreferenced existing role can. -/
theorem roleDeletion_guard_witness :
    guardedDeleteRole [⟨"r1", "admin", none, []⟩]
      [⟨"u1", "e", "p", "f", "l", "r1", none, none, true, 0⟩] "r1" = none ∧
    (∃ roles', guardedDeleteRole [(⟨"r1", "admin", none, []⟩ : Role)] [] "r1"
      = some roles' ∧ (∀ r ∈ roles', r.id ≠ "r1") ∧
      (∀ r ∈ [(⟨"r1", "admin", none, []⟩ : Role)], r.id ≠ "r1" → r ∈ roles')) := by
  constructor
  · exact (roleDeletion_guard [⟨"r1", "admin", none, []⟩]
      [⟨"u1", "e", "p", "f", "l", "r1", none, none, true, 0⟩] "r1").1
      ⟨⟨"u1", "e", "p", "f", "l", "r1", none, none, true, 0⟩, by decide, rfl⟩
  · exact (roleDeletion_guard [⟨"r1", "admin", none, []⟩] [] "r1").2.1
      (by intro x hx; simp at hx)
      ⟨⟨"r1", "admin", none, []⟩, by decide, rfl⟩

/-! ## C9: pagination envelope -/

lemma ceil_natCast_div (a b : ℕ) (hb : 0 < b) :
    ⌈(a : ℚ) / (b : ℚ)⌉ = (((a + b - 1) / b : ℕ) : ℤ) := by
  have hb' : (0 : ℚ) < (b : ℚ) := by exact_mod_cast hb
  have hdm := Nat.div_add_mod (a + b - 1) b
  have hml : (a + b - 1) % b < b := Nat.mod_lt _ hb
  have h1 : a ≤ b * ((a + b - 1) / b) := by omega
  have h2 : b * ((a + b - 1) / b) < a + b := by omega
  rw [Int.ceil_eq_iff]
  simp only [Int.cast_natCast]
  constructor
  · rw [lt_div_iff₀ hb', sub_mul, one_mul]
    have h2' : ((((a + b - 1) / b : ℕ)) : ℚ) * (b : ℚ) < (a : ℚ) + (b : ℚ) := by
      rw [mul_comm]
      exact_mod_cast h2
    linarith
  · rw [div_le_iff₀ hb']
    have h1' : (a : ℚ) ≤ ((((a + b - 1) / b : ℕ)) : ℚ) * (b : ℚ) := by
      rw [mul_comm]
      exact_mod_cast h1
    exact h1'

/-- C9: for `page ≥ 1` and `limit ≥ 1`, the paginated list calls return
the envelope `{ page, limit, total, pages = ceil(total / limit) }` (with
the ceiling equal to `(total + limit - 1) / limit` in integers), and the
items are the sorted matching rows after skipping `(page - 1) * limit`,
at most `limit` of them. -/
theorem pagination_envelope (su : List User) (sp : List PasswordResetToken)
    (page limit : Nat) (fu : UserFilters) (fp : PasswordResetTokenFilters)
    (now : Int) (_hpage : 1 ≤ page) (hlimit : 1 ≤ limit) :
    (getUsers su page limit fu).pagination
      = ⟨page, limit, prismaCount (userWhere fu) su,
          (((prismaCount (userWhere fu) su + limit - 1) / limit : ℕ) : ℤ)⟩ ∧
    (getUsers su page limit fu).users
      = ((sortByDesc (fun r => r.createdAt) (su.filter (userWhere fu))).drop
          ((page - 1) * limit)).take limit ∧
    (getUsers su page limit fu).users.length
      = min limit (prismaCount (userWhere fu) su - (page - 1) * limit) ∧
    (getPasswordResetTokens sp page limit fp now).pagination
      = ⟨page, limit, prismaCount (passwordResetTokenWhere fp now) sp,
          (((prismaCount (passwordResetTokenWhere fp now) sp + limit - 1)
            / limit : ℕ) : ℤ)⟩ ∧
    (getPasswordResetTokens sp page limit fp now).passwordResetTokens.length
      = min limit (prismaCount (passwordResetTokenWhere fp now) sp
          - (page - 1) * limit) := by
  refine ⟨?_, rfl, ?_, ?_, ?_⟩
  · simp only [getUsers, prismaPage, prismaCount]
    exact congrArg _ (ceil_natCast_div _ limit hlimit)
  · simp only [getUsers, prismaPage, prismaCount]
    rw [List.length_take, List.length_drop, (sortByDesc_perm _ _).length_eq]
  · simp only [getPasswordResetTokens, prismaPage, prismaCount]
    exact congrArg _ (ceil_natCast_div _ limit hlimit)
  · simp only [getPasswordResetTokens, prismaPage, prismaCount]
    rw [List.length_take, List.length_drop, (sortByDesc_perm _ _).length_eq]

/-- Witness for C9: `getUsers(page = 2, limit = 10)` over a store of 25
matching rows returns 10 items and the envelope
`{ page: 2, limit: 10, total: 25, pages: 3 }`. -/
theorem pagination_envelope_witness :
    (getUsers (List.replicate 25 ⟨"i", "e", "p", "f", "l", "r", none, none, true, 0⟩)
        2 10 ⟨none, none, none⟩).pagination = ⟨2, 10, 25, 3⟩ ∧
    (getUsers (List.replicate 25 ⟨"i", "e", "p", "f", "l", "r", none, none, true, 0⟩)
        2 10 ⟨none, none, none⟩).users.length = 10 := by
  have h := pagination_envelope
    (List.replicate 25 ⟨"i", "e", "p", "f", "l", "r", none, none, true, 0⟩)
    [] 2 10 ⟨none, none, none⟩ ⟨none, none, none⟩ 0 (by decide) (by decide)
  constructor
  · rw [h.1]
    decide
  · rw [h.2.2.1]
    decide

/-! ## C10: behaviour at the expiry boundary instant -/

/-- C10: a token whose `expiresAt` equals the `now` snapshot exactly is
invalid (validity needs `expiresAt > now`), yet the expired-sweep does
not delete it (deletion needs `expiresAt < now`) and the
`isExpired: false` pagination filter still includes it (it uses `gte`). -/
theorem expiry_boundary (sp : List PasswordResetToken) (t : String)
    (r : PasswordResetToken) (now : Int) :
    (findPasswordResetTokenByToken sp t = some r → r.expiresAt = now →
      isPasswordResetTokenValid sp t now = false) ∧
    (∀ x ∈ sp, x.expiresAt = now →
      x ∈ (deleteExpiredPasswordResetTokens sp now).1) ∧
    (r.expiresAt = now →
      passwordResetTokenWhere ⟨none, none, some false⟩ now r = true) ∧
    (r.expiresAt = now → r ∈ sp →
      r ∈ sp.filter (passwordResetTokenWhere ⟨none, none, some false⟩ now)) := by
  refine ⟨?_, ?_, ?_, ?_⟩
  · intro h he
    simp only [findPasswordResetTokenByToken] at h
    simp [isPasswordResetTokenValid, h, he]
  · intro x hx hxe
    exact List.mem_filter.2 ⟨hx, by simp [hxe]⟩
  · intro he
    simp [passwordResetTokenWhere, he]
  · intro he hr
    exact List.mem_filter.2 ⟨hr, by simp [passwordResetTokenWhere, he]⟩

/-- Witness for C10: a concrete token with `expiresAt = now = 5` is
invalid, survives the expired-sweep, and matches the `isExpired: false`
filter. -/
theorem expiry_boundary_witness :
    isPasswordResetTokenValid [⟨"i", "t", "u", 5, false, 0⟩] "t" 5 = false ∧
    (⟨"i", "t", "u", 5, false, 0⟩ : PasswordResetToken) ∈
      (deleteExpiredPasswordResetTokens [⟨"i", "t", "u", 5, false, 0⟩] 5).1 ∧
    passwordResetTokenWhere ⟨none, none, some false⟩ 5
      (⟨"i", "t", "u", 5, false, 0⟩ : PasswordResetToken) = true := by
  have h := expiry_boundary [⟨"i", "t", "u", 5, false, 0⟩] "t"
    ⟨"i", "t", "u", 5, false, 0⟩ 5
  exact ⟨h.1 (by decide) rfl, h.2.1 _ (by decide) rfl, h.2.2.1 rfl⟩
